import Mathlib

/-!
Shallow embedding of the Paxos implementation (`paxos.py`, `main.py`) and
verification of the specification's claims about it.

Modelling conventions:
* The Python dict `acceptance_counts` (keys `(proposal_number, value)`, values
  counts) is modelled as a total function `Nat × String → Nat`; an absent key
  corresponds to count `0` (the code creates entries with count `1`, i.e. `0 + 1`).
* The Python set `received_promises` (a set of proposal numbers) is modelled as
  a duplicate-free list, with `List.insert` for `set.add`.
* Logging (`PaxosLogger`) and `print` calls are write-only side channels with no
  influence on node state; they are dropped.  Where a claim is about what gets
  logged (`decide_on_promises_received` logging `ConsensusAchieved`), the logged
  datum is returned as an `Option` value instead.
* Each Python method mutating `self` becomes a function `PaxosNode → ... → PaxosNode`
  returning the updated node.
-/

namespace Paxos

/-- `NodeState` enum from `main.py`. -/
inductive NodeState where
  | UP
  | DOWN
  | BLOCKED
deriving DecidableEq

/-- `Proposal` dataclass from `main.py`: proposing node id, proposal number, value. -/
structure Proposal where
  node_id : Nat
  proposal_number : Nat
  value : String
deriving DecidableEq

/-- State of a `PaxosNode` (`paxos.py`).  The `role` field (constantly
`ACCEPTOR` in the constructor) and the `logger` field play no part in the
protocol logic and are omitted. -/
structure PaxosNode where
  node_id : Nat
  totalnodecount : Nat
  state : NodeState
  last_consensus : Option String
  consensus_reached : Bool
  received_promises : List Nat
  acceptance_counts : Nat × String → Nat

/-- `PaxosNode.__init__`: fresh node with the configured cluster size. -/
def PaxosNode.init (node_id node_count : Nat) : PaxosNode :=
  { node_id := node_id
    totalnodecount := node_count
    state := NodeState.UP
    last_consensus := none
    consensus_reached := false
    received_promises := []
    acceptance_counts := fun _ => 0 }

/-- Caller-driven fault injection: `node.state = ...` assignment used by the
tests and examples to mark a node DOWN (or back UP). -/
def set_state (s : PaxosNode) (st : NodeState) : PaxosNode :=
  { s with state := st }

/-- `PaxosNode.reset_consensus_reached`: clears the `consensus_reached` flag. -/
def reset_consensus_reached (s : PaxosNode) : PaxosNode :=
  { s with consensus_reached := false }

/-- `PaxosNode.set_consensus`: if the value differs from `last_consensus`,
record it, raise the flag, and immediately reset it via
`reset_consensus_reached`. -/
def set_consensus (s : PaxosNode) (value : String) : PaxosNode :=
  if s.last_consensus ≠ some value then
    reset_consensus_reached
      { s with last_consensus := some value, consensus_reached := true }
  else s

/-- The reply dict returned by `PaxosNode.send_promise`. -/
structure PromiseReply where
  proposal_number : Nat
  node_id : Nat
  last_consensus : Option String
  consensus_achieved : Bool
deriving DecidableEq

/-- `PaxosNode.send_promise`: when UP, add the proposal number to
`received_promises` and return the reply carrying `last_consensus`;
when not UP, do nothing and return no reply (Python falls through,
returning `None`). -/
def send_promise (s : PaxosNode) (p : Proposal) : PaxosNode × Option PromiseReply :=
  if s.state = NodeState.UP then
    ({ s with received_promises := s.received_promises.insert p.proposal_number },
     some { proposal_number := p.proposal_number
            node_id := s.node_id
            last_consensus := s.last_consensus
            consensus_achieved := s.last_consensus.isSome })
  else (s, none)

/-- `PaxosNode.receive_prepare`: when UP, both branches (existing consensus or
not) call `send_promise proposal`; the reply is discarded.  When not UP,
nothing happens. -/
def receive_prepare (s : PaxosNode) (p : Proposal) : PaxosNode :=
  if s.state = NodeState.UP then (send_promise s p).1 else s

/-- The local variable `majority` of `PaxosNode.receive_accept`:
`self.totalnodecount // 2 + 1`. -/
def majority (s : PaxosNode) : Nat := s.totalnodecount / 2 + 1

/-- The local variable `majority_needed` of
`PaxosNode.decide_on_promises_received`: `self.totalnodecount // 2 + 1`. -/
def majority_needed (s : PaxosNode) : Nat := s.totalnodecount / 2 + 1

/-- `PaxosNode.receive_accept`: when UP, increment the acceptance count for
the key `(proposal_number, value)`; if the new count reaches `majority`,
record `last_consensus = value` and call `reset_consensus_reached`.
No ballot comparison of any kind is performed. -/
def receive_accept (s : PaxosNode) (p : Proposal) : PaxosNode :=
  if s.state = NodeState.UP then
    let key := (p.proposal_number, p.value)
    let counts := fun k => if k = key then s.acceptance_counts k + 1 else s.acceptance_counts k
    if majority s ≤ counts key then
      reset_consensus_reached
        { s with acceptance_counts := counts, last_consensus := some p.value }
    else
      { s with acceptance_counts := counts }
  else s

/-- `PaxosNode.receive_broadcast`: when UP, `set_consensus(proposal.value)`
followed by the unconditional assignment `self.last_consensus = proposal.value`. -/
def receive_broadcast (s : PaxosNode) (p : Proposal) : PaxosNode :=
  if s.state = NodeState.UP then
    let s1 := set_consensus s p.value
    { s1 with last_consensus := some p.value }
  else s

/-- Inner loop of `PaxosNode.decide_on_promises_received`: walk the elements of
`received_promises`, counting each proposal number in the `consensus_count`
dict; the first number whose count reaches `majority_needed` is logged as
`ConsensusAchieved` and returned. -/
def consensus_count_loop (m : Nat) : List Nat → (Nat → Nat) → Option Nat
  | [], _ => none
  | v :: rest, cc =>
    let cc2 := fun x => if x = v then cc x + 1 else cc x
    if m ≤ cc2 v then some v else consensus_count_loop m rest cc2

/-- `PaxosNode.decide_on_promises_received`: counts the proposal numbers in the
node's own `received_promises` set and reports (as the logged
`ConsensusAchieved` value) the first one whose count reaches
`majority_needed`.  Note the counted items are proposal numbers, not values,
and the promise replies themselves are never consulted. -/
def decide_on_promises_received (s : PaxosNode) : Option Nat :=
  consensus_count_loop (majority_needed s) s.received_promises (fun _ => 0)

/-- `PaxosNode.receive_promise`: record the proposal number (no UP guard in
the source) and run `decide_on_promises_received` on the updated state. -/
def receive_promise (s : PaxosNode) (p : Proposal) : PaxosNode × Option Nat :=
  let s1 := { s with received_promises := s.received_promises.insert p.proposal_number }
  (s1, decide_on_promises_received s1)

/-- `PaxosNode.send_prepare`: when the sender is UP, deliver
`receive_prepare proposal` to every UP node in the cluster; nodes that are
not UP are skipped (the message is only logged as `PrepareNotSent`).  When
the sender is not UP, nothing is delivered. -/
def send_prepare (sender : PaxosNode) (nodes : List PaxosNode) (p : Proposal) :
    List PaxosNode :=
  if sender.state = NodeState.UP then
    nodes.map (fun node => if node.state = NodeState.UP then receive_prepare node p else node)
  else nodes

/-- `PaxosNode.send_accept`: when the sender is UP, deliver
`receive_accept proposal` to every UP node in the cluster; non-UP nodes are
skipped.  When the sender is not UP, nothing is delivered. -/
def send_accept (sender : PaxosNode) (nodes : List PaxosNode) (p : Proposal) :
    List PaxosNode :=
  if sender.state = NodeState.UP then
    nodes.map (fun node => if node.state = NodeState.UP then receive_accept node p else node)
  else nodes

/-- Quorum size for a cluster of `n` configured members, as used (inline, as
`totalnodecount // 2 + 1`) by both counting phases of the implementation. -/
def quorum_size (n : Nat) : Nat := n / 2 + 1

/-- The highest proposal number this node has ever promised: the maximum of
the `received_promises` set (0 when empty).  The implementation stores the
set of promised proposal numbers rather than a scalar watermark; this is the
derived `highest_promised` watermark of the specification's AcceptorState. -/
def highest_promised (s : PaxosNode) : Nat := s.received_promises.foldr max 0

/-- An acceptor-side operation: an incoming Prepare or an incoming Accept. -/
inductive AcceptorOp where
  | prepare (p : Proposal)
  | accept (p : Proposal)

/-- Apply one acceptor-side operation to a node. -/
def applyOp (s : PaxosNode) : AcceptorOp → PaxosNode
  | AcceptorOp.prepare p => receive_prepare s p
  | AcceptorOp.accept p => receive_accept s p

/-- Apply a finite interleaving of Prepare/Accept operations, in order. -/
def applyOps (s : PaxosNode) (ops : List AcceptorOp) : PaxosNode :=
  ops.foldl applyOp s

/-- A fresh all-UP cluster of `n` nodes with ids `1..n`, as built by the
tests' and examples' setup loops. -/
def freshCluster (n : Nat) : List PaxosNode :=
  (List.range n).map (fun i => PaxosNode.init (i + 1) n)

/-- Driver step: the node at index `i` of the cluster broadcasts
`Accept(proposal)` to every node (as `proposer.send_accept(nodes, proposal)`
in the tests and examples). -/
def acceptBroadcast (l : List PaxosNode) (i : Nat) (p : Proposal) : List PaxosNode :=
  send_accept (l.getD i (PaxosNode.init 0 0)) l p

/-- Driver step: deliver a message to the node at index `i` of the cluster. -/
def deliverAt (l : List PaxosNode) (i : Nat) (f : PaxosNode → PaxosNode) : List PaxosNode :=
  l.set i (f (l.getD i (PaxosNode.init 0 0)))

/-- Concrete execution refuting the safety claim: a 3-node cluster; node 1
broadcasts `Accept(1, "a")` twice (a retransmission, which the specification's
idempotence property explicitly allows), then node 2 broadcasts
`Accept(2, "b")` twice. -/
def c1mid : List PaxosNode :=
  acceptBroadcast (acceptBroadcast (freshCluster 3) 0 ⟨1, 1, "a"⟩) 0 ⟨1, 1, "a"⟩

/-- Final cluster of the safety-violation execution. -/
def c1final : List PaxosNode :=
  acceptBroadcast (acceptBroadcast c1mid 1 ⟨2, 2, "b"⟩) 1 ⟨2, 2, "b"⟩

/-- First node of the final cluster of the safety-violation execution. -/
def c1node : PaxosNode := c1final.getD 0 (PaxosNode.init 0 0)

/-- Concrete execution refuting the value-preservation claim, phase one:
nodes 2 and 3 of a fresh 3-node cluster have previously decided `"old"`
(delivered by a Decide broadcast of an earlier round at ballot 1); then
node 1 runs a Prepare round for a new proposal `(ballot 2, "new")`. -/
def c2prepared : List PaxosNode :=
  let withOld :=
    deliverAt (deliverAt (freshCluster 3) 1 (fun nd => receive_broadcast nd ⟨3, 1, "old"⟩)) 2
      (fun nd => receive_broadcast nd ⟨3, 1, "old"⟩)
  send_prepare (withOld.getD 0 (PaxosNode.init 0 0)) withOld ⟨1, 2, "new"⟩

/-- Promise collection from node 2 (as the drivers do via `send_promise`). -/
def c2promise2 : PaxosNode × Option PromiseReply :=
  send_promise (c2prepared.getD 1 (PaxosNode.init 0 0)) ⟨1, 2, "new"⟩

/-- Cluster after node 2's promise. -/
def c2afterP2 : List PaxosNode := c2prepared.set 1 c2promise2.1

/-- Promise collection from node 3. -/
def c2promise3 : PaxosNode × Option PromiseReply :=
  send_promise (c2afterP2.getD 2 (PaxosNode.init 0 0)) ⟨1, 2, "new"⟩

/-- Cluster after the full promise quorum (nodes 2 and 3). -/
def c2afterP3 : List PaxosNode := c2afterP2.set 2 c2promise3.1

/-- Final cluster: node 1 broadcasts `Accept(2, "new")` twice; every node
accumulates 2 acceptances for the key `(2, "new")` and decides `"new"`. -/
def c2final : List PaxosNode :=
  acceptBroadcast (acceptBroadcast c2afterP3 0 ⟨1, 2, "new"⟩) 0 ⟨1, 2, "new"⟩

/-- An acceptor that has already promised ballot 5: a fresh node after
`receive_prepare` for proposal `(ballot 5)` from node 2. -/
def c3node : PaxosNode := receive_prepare (PaxosNode.init 1 3) ⟨2, 5, "x"⟩

/-- A node that has already decided the value `"v"` (via a Decide broadcast). -/
def c7node : PaxosNode := receive_broadcast (PaxosNode.init 1 3) ⟨2, 1, "v"⟩

/-- A DOWN node used as an unreachable message target. -/
def c8target : PaxosNode := set_state (PaxosNode.init 2 3) NodeState.DOWN

/-- A 2-member cluster whose second node is DOWN. -/
def c8nodes : List PaxosNode := [PaxosNode.init 1 3, c8target]

/-! ## Helper lemmas -/

/-- Characterization of `receive_accept` on an UP node when the incremented
count reaches `majority`: the count for the key goes up by one, the value is
recorded as `last_consensus`, and `reset_consensus_reached` clears the flag. -/
theorem receive_accept_of_reached (s : PaxosNode) (p : Proposal)
    (h : s.state = NodeState.UP)
    (hc : majority s ≤ s.acceptance_counts (p.proposal_number, p.value) + 1) :
    receive_accept s p =
      { s with
        acceptance_counts := fun k =>
          if k = (p.proposal_number, p.value) then s.acceptance_counts k + 1
          else s.acceptance_counts k,
        last_consensus := some p.value,
        consensus_reached := false } := by
  simp [receive_accept, reset_consensus_reached, h, hc]

/-- Characterization of `receive_accept` on an UP node when the incremented
count stays below `majority`: only the count for the key changes. -/
theorem receive_accept_of_not_reached (s : PaxosNode) (p : Proposal)
    (h : s.state = NodeState.UP)
    (hc : ¬ majority s ≤ s.acceptance_counts (p.proposal_number, p.value) + 1) :
    receive_accept s p =
      { s with
        acceptance_counts := fun k =>
          if k = (p.proposal_number, p.value) then s.acceptance_counts k + 1
          else s.acceptance_counts k } := by
  simp [receive_accept, hc, h]

/-- `receive_accept` never touches the set of promised proposal numbers. -/
theorem received_promises_receive_accept (s : PaxosNode) (p : Proposal) :
    (receive_accept s p).received_promises = s.received_promises := by
  by_cases h : s.state = NodeState.UP
  · by_cases hc : majority s ≤ s.acceptance_counts (p.proposal_number, p.value) + 1
    · rw [receive_accept_of_reached s p h hc]
    · rw [receive_accept_of_not_reached s p h hc]
  · simp [receive_accept, h]

/-- Inserting into a list of naturals can only increase its maximum. -/
theorem foldr_max_insert (l : List Nat) (a : Nat) :
    l.foldr max 0 ≤ (l.insert a).foldr max 0 := by
  by_cases h : a ∈ l
  · simp [List.insert_of_mem h]
  · simp [List.insert_of_not_mem h]

/-- One acceptor-side step (incoming Prepare or Accept) never lowers the
highest promised proposal number. -/
theorem highest_promised_le_applyOp (s : PaxosNode) (o : AcceptorOp) :
    highest_promised s ≤ highest_promised (applyOp s o) := by
  cases o with
  | prepare p =>
    by_cases h : s.state = NodeState.UP
    · simp only [applyOp, receive_prepare, send_promise, h, if_pos]
      exact foldr_max_insert _ _
    · simp [applyOp, receive_prepare, h]
  | accept p =>
    simp [applyOp, highest_promised, received_promises_receive_accept]

/-! ## Claims -/

/-- C1: the claim that no reachable state of the node set has two distinct
`(proposal_number, value)` proposals with different values each holding at
least `quorum_size` acceptances is false on the code.  `receive_accept`
performs no ballot comparison whatever, so in the concrete 3-node execution
`c1final` (node 1 broadcasts `Accept(1, "a")` twice, node 2 broadcasts
`Accept(2, "b")` twice) both keys `(1, "a")` and `(2, "b")` reach the quorum
threshold 2 at node 1, which moreover decides `"a"` first and then `"b"`. -/
theorem C1_two_values_reach_quorum_acceptance :
    quorum_size c1node.totalnodecount ≤ c1node.acceptance_counts (1, "a") ∧
    quorum_size c1node.totalnodecount ≤ c1node.acceptance_counts (2, "b") ∧
    ("a" : String) ≠ "b" ∧
    (c1mid.getD 0 (PaxosNode.init 0 0)).last_consensus = some "a" ∧
    c1node.last_consensus = some "b" := by decide

/-- C2: the claim that a proposer adopts the highest-ballot accepted value
reported by a promise quorum is false on the code.  In `c2final`, nodes 2 and
3 have previously decided `"old"`, and their promise replies to node 1's new
proposal both carry `last_consensus = "old"` with `consensus_achieved = true`
(a full promise quorum of 2 = `quorum_size 3` reporting a non-empty accepted
value); yet the Accept phase broadcasts the caller's own value `"new"` and
every node ends up deciding `"new"`, never re-proposing `"old"`. -/
theorem C2_reported_accepted_value_ignored :
    c2promise2.2 = some ⟨2, 2, some "old", true⟩ ∧
    c2promise3.2 = some ⟨2, 3, some "old", true⟩ ∧
    quorum_size 3 = 2 ∧
    (c2final.getD 0 (PaxosNode.init 0 0)).last_consensus = some "new" ∧
    (c2final.getD 1 (PaxosNode.init 0 0)).last_consensus = some "new" ∧
    (c2final.getD 2 (PaxosNode.init 0 0)).last_consensus = some "new" ∧
    (some "new" : Option String) ≠ some "old" := by decide

/-- C3: the claim that `on_prepare` compares the incoming ballot against
`highest_promised` and answers Reject for stale ballots is false on the code.
`c3node` has already promised ballot 5, yet an incoming Prepare with the
lower ballot 3 is still answered with a Promise (the reply dict, never any
Reject — `receive_prepare`/`send_promise` have no rejecting branch at all)
and 3 is added to the promised set. -/
theorem C3_lower_ballot_prepare_still_promised :
    highest_promised c3node = 5 ∧
    (3 : Nat) < 5 ∧
    (send_promise c3node ⟨2, 3, "x"⟩).2 = some ⟨3, 1, none, false⟩ ∧
    3 ∈ (receive_prepare c3node ⟨2, 3, "x"⟩).received_promises := by decide

/-- C4: the claim that `on_accept` rejects a ballot below `highest_promised`
(and otherwise records `highest_promised`/`highest_accepted`) is false on the
code.  The acceptor `c3node` has promised ballot 5, yet an incoming Accept at
the lower ballot 3 is still counted as an acceptance (the count for
`(3, "v")` is incremented); `receive_accept` maintains no promise watermark
and has no rejecting branch at all. -/
theorem C4_lower_ballot_accept_still_counted :
    highest_promised c3node = 5 ∧
    (3 : Nat) < 5 ∧
    (receive_accept c3node ⟨2, 3, "v"⟩).acceptance_counts (3, "v") =
      c3node.acceptance_counts (3, "v") + 1 := by decide

/-- C5: under every finite interleaving of incoming Prepare and Accept
messages, the highest promised proposal number of a node (the maximum of its
`received_promises` set, the implementation's counterpart of the
specification's `highest_promised` watermark) never decreases. -/
theorem C5_highest_promised_monotone (s : PaxosNode) (ops : List AcceptorOp) :
    highest_promised s ≤ highest_promised (applyOps s ops) := by
  induction ops generalizing s with
  | nil => exact le_refl _
  | cons o rest ih =>
    exact le_trans (highest_promised_le_applyOp s o) (ih (applyOp s o))

/-- C6: the quorum threshold used by both counting phases (`majority` in
`receive_accept`, `majority_needed` in `decide_on_promises_received`) equals
`N // 2 + 1` for the configured member count `N` (checked at
N ∈ {1, 3, 4, 5, 7}); it is computed from `totalnodecount`, which is fixed at
construction and unchanged by marking a node DOWN/BLOCKED; and
`receive_accept` records a decision exactly when the incremented count meets
that threshold. -/
theorem C6_quorum_arithmetic :
    (quorum_size 1 = 1 ∧ quorum_size 3 = 2 ∧ quorum_size 4 = 3 ∧
      quorum_size 5 = 3 ∧ quorum_size 7 = 4) ∧
    (∀ s : PaxosNode, majority s = quorum_size s.totalnodecount ∧
      majority_needed s = quorum_size s.totalnodecount) ∧
    (∀ nid n, (PaxosNode.init nid n).totalnodecount = n) ∧
    (∀ (s : PaxosNode) (st : NodeState),
      majority (set_state s st) = majority s ∧
      majority_needed (set_state s st) = majority_needed s) ∧
    (∀ (s : PaxosNode) (p : Proposal), s.state = NodeState.UP →
      ((receive_accept s p).last_consensus = some p.value ↔
        majority s ≤ s.acceptance_counts (p.proposal_number, p.value) + 1 ∨
          s.last_consensus = some p.value)) := by
  refine ⟨by decide, fun s => ⟨rfl, rfl⟩, fun nid n => rfl, fun s st => ⟨rfl, rfl⟩, ?_⟩
  intro s p h
  by_cases hc : majority s ≤ s.acceptance_counts (p.proposal_number, p.value) + 1
  · rw [receive_accept_of_reached s p h hc]
    simp [hc]
  · rw [receive_accept_of_not_reached s p h hc]
    simp [hc]

/-- Witness for C6 at a concrete 5-member node handling a concrete Accept. -/
theorem C6_quorum_arithmetic_witness :
    (receive_accept (PaxosNode.init 1 5) ⟨1, 1, "v"⟩).last_consensus = some "v" ↔
      majority (PaxosNode.init 1 5) ≤
          (PaxosNode.init 1 5).acceptance_counts (1, "v") + 1 ∨
        (PaxosNode.init 1 5).last_consensus = some "v" :=
  C6_quorum_arithmetic.2.2.2.2 (PaxosNode.init 1 5) ⟨1, 1, "v"⟩ rfl

/-- C7: once a node has decided a value, replaying an identical Accept or an
identical Decide broadcast for that same value leaves the recorded consensus
value (`last_consensus`, the ConsensusRecord) unchanged. -/
theorem C7_replay_idempotent (s : PaxosNode) (p : Proposal)
    (h : s.last_consensus = some p.value) :
    (receive_broadcast s p).last_consensus = s.last_consensus ∧
    (receive_accept s p).last_consensus = s.last_consensus := by
  constructor
  · by_cases hup : s.state = NodeState.UP
    · simp [receive_broadcast, set_consensus, hup, h]
    · simp [receive_broadcast, hup]
  · by_cases hup : s.state = NodeState.UP
    · by_cases hc : majority s ≤ s.acceptance_counts (p.proposal_number, p.value) + 1
      · rw [receive_accept_of_reached s p hup hc]; simp [h]
      · rw [receive_accept_of_not_reached s p hup hc]
    · simp [receive_accept, hup]

/-- Witness for C7: a node that has decided `"v"` is unchanged by replays. -/
theorem C7_replay_idempotent_witness :
    (receive_broadcast c7node ⟨2, 1, "v"⟩).last_consensus = c7node.last_consensus ∧
    (receive_accept c7node ⟨2, 1, "v"⟩).last_consensus = c7node.last_consensus :=
  C7_replay_idempotent c7node ⟨2, 1, "v"⟩ (by decide)

/-- C8: a Prepare or Accept whose target is DOWN or BLOCKED never reaches the
target's handler: after `send_prepare` or `send_accept` the target node (at
its position in the cluster) is completely unchanged — every field, including
`received_promises`, `acceptance_counts` and `last_consensus` — and even a
direct handler call on a non-UP node leaves it untouched. -/
theorem C8_unreachable_target_unchanged (sender target : PaxosNode)
    (nodes : List PaxosNode) (p : Proposal) (i : Nat)
    (hget : nodes[i]? = some target)
    (hdown : target.state = NodeState.DOWN ∨ target.state = NodeState.BLOCKED) :
    (send_prepare sender nodes p)[i]? = some target ∧
    (send_accept sender nodes p)[i]? = some target ∧
    receive_prepare target p = target ∧
    receive_accept target p = target := by
  have hne : ¬ target.state = NodeState.UP := by
    rcases hdown with h | h <;> simp [h]
  refine ⟨?_, ?_, by simp [receive_prepare, hne], by simp [receive_accept, hne]⟩
  · unfold send_prepare
    split
    · rw [List.getElem?_map, hget]
      simp [hne, receive_prepare]
    · exact hget
  · unfold send_accept
    split
    · rw [List.getElem?_map, hget]
      simp [hne, receive_accept]
    · exact hget

/-- Witness for C8: a concrete DOWN node in a 2-node cluster is unchanged. -/
theorem C8_unreachable_target_unchanged_witness :
    (send_prepare (PaxosNode.init 1 3) c8nodes ⟨1, 1, "v"⟩)[1]? = some c8target ∧
    (send_accept (PaxosNode.init 1 3) c8nodes ⟨1, 1, "v"⟩)[1]? = some c8target ∧
    receive_prepare c8target ⟨1, 1, "v"⟩ = c8target ∧
    receive_accept c8target ⟨1, 1, "v"⟩ = c8target :=
  C8_unreachable_target_unchanged (PaxosNode.init 1 3) c8target c8nodes
    ⟨1, 1, "v"⟩ 1 rfl (Or.inl rfl)

/-- C9: the `consensus_reached` flag is `false` when any public operation
returns: it holds `false` at construction and, assuming it is `false` on
entry, every operation — `set_consensus` (which raises and immediately resets
it), `receive_broadcast`, `receive_accept`, `receive_prepare`,
`reset_consensus_reached` — returns with it `false`, so no caller ever
observes `consensus_reached = true`. -/
theorem C9_consensus_flag_false_after_call (s : PaxosNode) (v : String)
    (p : Proposal) (h : s.consensus_reached = false) :
    (∀ nid n, (PaxosNode.init nid n).consensus_reached = false) ∧
    (set_consensus s v).consensus_reached = false ∧
    (receive_broadcast s p).consensus_reached = false ∧
    (receive_accept s p).consensus_reached = false ∧
    (receive_prepare s p).consensus_reached = false ∧
    (reset_consensus_reached s).consensus_reached = false := by
  have hset : ∀ w, (set_consensus s w).consensus_reached = false := by
    intro w
    by_cases hv : s.last_consensus ≠ some w
    · simp [set_consensus, hv, reset_consensus_reached]
    · simp [set_consensus, hv, h]
  refine ⟨fun nid n => rfl, hset v, ?_, ?_, ?_, rfl⟩
  · by_cases hup : s.state = NodeState.UP
    · simp [receive_broadcast, hup, hset]
    · simp [receive_broadcast, hup, h]
  · by_cases hup : s.state = NodeState.UP
    · by_cases hc : majority s ≤ s.acceptance_counts (p.proposal_number, p.value) + 1
      · rw [receive_accept_of_reached s p hup hc]
      · rw [receive_accept_of_not_reached s p hup hc]; exact h
    · simp [receive_accept, hup, h]
  · by_cases hup : s.state = NodeState.UP
    · simp [receive_prepare, send_promise, hup, h]
    · simp [receive_prepare, hup, h]

/-- Witness for C9 at a fresh node. -/
theorem C9_consensus_flag_false_after_call_witness :
    (∀ nid n, (PaxosNode.init nid n).consensus_reached = false) ∧
    (set_consensus (PaxosNode.init 1 3) "v").consensus_reached = false ∧
    (receive_broadcast (PaxosNode.init 1 3) ⟨1, 1, "v"⟩).consensus_reached = false ∧
    (receive_accept (PaxosNode.init 1 3) ⟨1, 1, "v"⟩).consensus_reached = false ∧
    (receive_prepare (PaxosNode.init 1 3) ⟨1, 1, "v"⟩).consensus_reached = false ∧
    (reset_consensus_reached (PaxosNode.init 1 3)).consensus_reached = false :=
  C9_consensus_flag_false_after_call (PaxosNode.init 1 3) "v" ⟨1, 1, "v"⟩ rfl

/-- C10: acceptance counting is strictly local to the receiving node.  After
one `send_accept` broadcast over a fresh all-UP cluster of `n ≥ 3` configured
nodes, every node's count for the broadcast key equals 1, which is below the
quorum threshold `n / 2 + 1`, and no node has recorded a decision; and in
general each `receive_accept` call increments exactly the receiving node's
own count for the key `(proposal_number, value)` by one, leaves every other
key unchanged, and changes `last_consensus` only when the node's own
incremented count has reached the quorum threshold. -/
theorem C10_acceptance_counting_local (n : Nat) (p : Proposal)
    (sender : PaxosNode) (hn : 3 ≤ n) (hs : sender.state = NodeState.UP) :
    (∀ i, i < n →
      ((send_accept sender (freshCluster n) p).getD i
          (PaxosNode.init 0 0)).acceptance_counts (p.proposal_number, p.value) = 1 ∧
      1 < quorum_size n ∧
      ((send_accept sender (freshCluster n) p).getD i
          (PaxosNode.init 0 0)).last_consensus = none) ∧
    (∀ (s : PaxosNode) (q : Proposal), s.state = NodeState.UP →
      (receive_accept s q).acceptance_counts (q.proposal_number, q.value) =
        s.acceptance_counts (q.proposal_number, q.value) + 1 ∧
      (∀ k, k ≠ (q.proposal_number, q.value) →
        (receive_accept s q).acceptance_counts k = s.acceptance_counts k) ∧
      ((receive_accept s q).last_consensus ≠ s.last_consensus →
        quorum_size s.totalnodecount ≤
          s.acceptance_counts (q.proposal_number, q.value) + 1)) := by
  constructor
  · intro i hi
    have hq : 1 < quorum_size n := by
      unfold quorum_size
      omega
    have hfc : (freshCluster n)[i]? = some (PaxosNode.init (i + 1) n) := by
      simp [freshCluster, List.getElem?_map, List.getElem?_range, hi]
    have hnode : (send_accept sender (freshCluster n) p).getD i (PaxosNode.init 0 0) =
        receive_accept (PaxosNode.init (i + 1) n) p := by
      unfold send_accept
      rw [if_pos hs, List.getD_eq_getElem?_getD, List.getElem?_map, hfc]
      rfl
    have hnr : ¬ majority (PaxosNode.init (i + 1) n) ≤
        (PaxosNode.init (i + 1) n).acceptance_counts (p.proposal_number, p.value) + 1 := by
      show ¬ n / 2 + 1 ≤ 0 + 1
      omega
    rw [hnode, receive_accept_of_not_reached _ _ rfl hnr]
    exact ⟨by simp [PaxosNode.init], hq, rfl⟩
  · intro s q hup
    by_cases hc : majority s ≤ s.acceptance_counts (q.proposal_number, q.value) + 1
    · rw [receive_accept_of_reached s q hup hc]
      refine ⟨by simp, fun k hk => by simp [hk], fun _ => hc⟩
    · rw [receive_accept_of_not_reached s q hup hc]
      refine ⟨by simp, fun k hk => by simp [hk], fun hne => absurd rfl hne⟩

/-- Witness for C10: a single broadcast over a fresh 3-node cluster leaves
node 1 with exactly one acceptance for the key and no decision. -/
theorem C10_acceptance_counting_local_witness :
    ((send_accept (PaxosNode.init 1 3) (freshCluster 3) ⟨1, 1, "v"⟩).getD 0
        (PaxosNode.init 0 0)).acceptance_counts (1, "v") = 1 ∧
    1 < quorum_size 3 ∧
    ((send_accept (PaxosNode.init 1 3) (freshCluster 3) ⟨1, 1, "v"⟩).getD 0
        (PaxosNode.init 0 0)).last_consensus = none :=
  (C10_acceptance_counting_local 3 ⟨1, 1, "v"⟩ (PaxosNode.init 1 3)
    (by decide) rfl).1 0 (by decide)

end Paxos
